import Mathlib

/-!
Shallow embedding of `teuthology/task/internal.py`: the lifecycle stages
(`base`, `lock_machines`, `archive`, `coredump`, `syslog`) and the pieces of
state they manipulate (the run summary dictionary, the lock-acquisition poll
loop, the VM keyscan loop, the teardown effects).  Python dictionaries holding
optional entries become `Option`, remote commands become effect records, and
the loops become explicit step functions over explicit state.
-/

namespace Internal

/-- A single quote character, used when the code quotes a log line inside a
failure reason (`"'\x7berror\x7d' in syslog"`). -/
def squote : String := (Char.ofNat 39).toString

/-- If `s` starts with the token `tok`, return the remainder of `s`. -/
def stripTok : List Char → List Char → Option (List Char)
  | [], s => some s
  | _ :: _, [] => none
  | t :: ts, c :: cs => if c = t then stripTok ts cs else none

/-- First position where `tok` occurs in `s`, returning the suffix after the
occurrence. -/
def suffixAfter (tok : List Char) : List Char → Option (List Char)
  | [] => stripTok tok []
  | c :: cs =>
    match stripTok tok (c :: cs) with
    | some rest => some rest
    | none => suffixAfter tok cs

/-- Python substring membership `pat in s` (for non-empty `pat` it holds iff
`pat` occurs contiguously in `s`; `"" in s` is always true). -/
def strContains (s pat : String) : Bool :=
  (suffixAfter pat.data s.data).isSome

/-- Python `s.startswith(pat)`. -/
def strStartsWith (s pat : String) : Bool :=
  (stripTok pat.data s.data).isSome

/-- Helper for `splitlines`: `acc` holds the current line reversed. -/
def splitlinesAux (acc : List Char) : List Char → List (List Char)
  | [] => [acc.reverse]
  | c :: cs =>
    if c = '\n' then
      acc.reverse :: (match cs with
        | [] => []
        | _ :: _ => splitlinesAux [] cs)
    else splitlinesAux (c :: acc) cs

/-- Python `str.splitlines` restricted to newline separators: splits on
newline and drops a final empty piece produced by a trailing newline;
the empty string yields no lines. -/
def splitlines (s : String) : List String :=
  match s.data with
  | [] => []
  | c :: cs => (splitlinesAux [] (c :: cs)).map fun l => ⟨l⟩

/-- The run-summary dictionary `ctx.summary` as mutated by this module:
`success` is a boolean entry; `failure_reason` is an entry that may be
absent (`none`). -/
structure RunSummary where
  success : Bool
  failure_reason : Option String
deriving Repr, DecidableEq

/-- The `except Exception` branch of `archive` (internal.py:307-310): on a
raised error from the wrapped stages it sets `ctx.summary['success'] = False`
(and re-raises; re-raising is modelled in `archiveStage`). -/
def archiveOnExcept (s : RunSummary) : RunSummary :=
  { s with success := false }

/-- Per-host coredump detection in the `finally` of `coredump`
(internal.py:406-420): `stdout` is the captured output of the
`if test ! -e .../coredump; then echo OK; fi` remote command, `rem` the host.
If the output is not exactly the line `OK` (the directory is still there,
i.e. cores were dumped) set `success = False` and, only when no
`failure_reason` entry exists yet, record one naming the host. -/
def coredumpCheckHost (stdout : String) (rem : String) (s : RunSummary) :
    RunSummary :=
  if stdout != "OK\n" then
    { success := false
      failure_reason :=
        match s.failure_reason with
        | none => some ("Found coredumps on " ++ rem)
        | some r => some r }
  else s

/-! Section: the syslog severity scan (internal.py:499-537).

Per host the code runs the pipeline
`egrep 'BUG|INFO|DEADLOCK' (word-bounded) *.log | grep -v ... | head -n 1`
and flags the run when the captured stdout is non-empty.  We model it over the
list of log lines of the host: `egrep` keeps the lines containing one of the
three tokens with word boundaries, each `grep -v` drops the lines matching one
allow-listed pattern, `head -n 1` keeps the first survivor. -/

/-- Regex word character (`\w`): alphanumeric or underscore. -/
def isWordChar (c : Char) : Bool := c.isAlphanum || c == '_'

/-- A word boundary against the neighbouring character (`none` = edge of the
line). -/
def boundary (oc : Option Char) : Bool :=
  match oc with
  | none => true
  | some c => !isWordChar c

/-- Scan for an occurrence of `tok` in the character list with a word boundary
on both sides (`prev` is the character just before the current position). -/
def wordScan (tok : List Char) (prev : Option Char) : List Char → Bool
  | [] => false
  | c :: cs =>
    (match stripTok tok (c :: cs) with
     | some rest => boundary prev && boundary rest.head?
     | none => false)
    || wordScan tok (some c) cs

/-- Whether a word-bounded occurrence of `tok` appears somewhere in
`line`. -/
def wordHit (line : String) (tok : String) : Bool :=
  wordScan tok.data none line.data

/-- The `egrep` selector `\bBUG\b|\bINFO\b|\bDEADLOCK\b`. -/
def severityHit (line : String) : Bool :=
  wordHit line "BUG" || wordHit line "INFO" || wordHit line "DEADLOCK"

/-- The pieces of `pats` occur in `s` in order, each after the previous one
(models an unanchored basic regex `p1.*p2.*p3` pattern). -/
def chainContains : List Char → List String → Bool
  | _, [] => true
  | s, p :: ps =>
    match suffixAfter p.data s with
    | some rest => chainContains rest ps
    | none => false

/-- The fixed allow-list of known-benign patterns, one `grep -v` each
(internal.py:505-525).  The two-gap pattern
`task .* blocked for more than .* seconds` is an ordered-containment check;
the others are literal substrings. -/
def benign (line : String) : Bool :=
  chainContains line.data ["task ", " blocked for more than ", " seconds"]
  || strContains line "lockdep is turned off"
  || strContains line "trying to register non-static key"
  || strContains line "DEBUG: fsize"
  || strContains line "CRON"
  || strContains line "BUG: bad unlock balance detected"
  || strContains line "inconsistent lock state"
  || strContains line "*** DEADLOCK ***"
  || strContains line "INFO: possible irq lock inversion dependency detected"
  || strContains line "INFO: NMI handler (perf_event_nmi_handler) took too long to run"
  || strContains line "INFO: recovery required on readonly"

/-- The whole scan pipeline over one host's captured log lines: severity
lines, minus allow-listed lines, first survivor (`head -n 1`). -/
def scanPipeline (lines : List String) : Option String :=
  ((lines.filter severityHit).filter (fun l => !benign l)).head?

/-- Per-host syslog check (internal.py:531-537).  When the pipeline printed a
line (`stdout != ''`, stdout being the line plus the trailing newline printed
by `head`), set `success = False` and, first-writer-wins, a `failure_reason`
quoting the captured output. -/
def syslogCheckHost (lines : List String) (s : RunSummary) : RunSummary :=
  match scanPipeline lines with
  | none => s
  | some line =>
    { success := false
      failure_reason :=
        match s.failure_reason with
        | none => some (squote ++ (line ++ "\n") ++ squote ++ " in syslog")
        | some r => some r }

/-! Section: lock_machines (internal.py:58-152). -/

/-- One entry of `lock.list_locks()`: the fields this module reads. -/
structure MachineRecord where
  name : String
  up : Bool
  mtype : String
  locked : Nat
deriving Repr, DecidableEq

/-- Predicate `is_up` (internal.py:82): up and of an acceptable type. -/
def is_up (machine_types : List String) (m : MachineRecord) : Bool :=
  m.up && machine_types.contains m.mtype

/-- Predicate `is_up_and_free` (internal.py:87): up, unlocked and of an
acceptable type. -/
def is_up_and_free (machine_types : List String) (m : MachineRecord) : Bool :=
  m.up && m.locked == 0 && machine_types.contains m.mtype

/-- What one iteration of the acquisition poll loop does before reaching the
lease call. -/
inductive PollAction where
  | fatal (msg : String)
  | sleepRetry (seconds : Nat)
  | lease
deriving Repr, DecidableEq

/-- The head of one iteration of the `while True` poll loop
(internal.py:71-101): list the machines (a failed listing retries after 20s
when blocking, else dies), assert enough matching machines are up (fatal),
then the fairness floor: a `scheduled*` owner with fewer than 6 free machines
sleeps 10s and retries when blocking, else dies; otherwise fall through to the
lease attempt. -/
def pollPreLease (machines : Option (List MachineRecord))
    (machine_types : List String) (how_many : Nat) (owner : String)
    (block : Bool) : PollAction :=
  match machines with
  | none =>
    if block then .sleepRetry 20 else .fatal "error listing machines"
  | some ms =>
    let num_up := (ms.filter (is_up machine_types)).length
    if num_up < how_many then .fatal "not enough machines are up"
    else
      let num_free := (ms.filter (is_up_and_free machine_types)).length
      if num_free < 6 ∧ strStartsWith owner "scheduled" = true then
        if block then .sleepRetry 10 else .fatal "not enough machines free"
      else .lease

/-- Outcome of one lease attempt (internal.py:102-144, the branch on
`len(newly_locked) == how_many`). -/
inductive LeaseOutcome where
  /-- Full grant: `ctx.config['targets']` is populated with the granted
  machines and the loop breaks. -/
  | success (targets : List String)
  /-- Partial grant, non-blocking: `assert 0, 'not enough machines are
  available'`. -/
  | fatal
  /-- Partial grant, blocking: sleep and go round the loop again. -/
  | sleepRetry (seconds : Nat)
deriving Repr, DecidableEq

/-- The lease-attempt tail of a poll iteration: `newly_locked` is the machine
set `lock.lock_many` granted.  Returns the outcome together with the list of
machines released (unlocked) during this step — the code releases nothing on
a partial grant. -/
def leaseStep (newly_locked : List String) (how_many : Nat) (block : Bool) :
    LeaseOutcome × List String :=
  if newly_locked.length = how_many then (.success newly_locked, [])
  else if block = false then (.fatal, [])
  else (.sleepRetry 10, [])

/-- State of the VM keyscan loop (internal.py:111-127): the stall counter
`loopcount` and the last keyscan output. -/
structure VMPollState where
  loopcount : Nat
  keyscan_out : String
deriving Repr, DecidableEq

/-- The loop guard `len(keyscan_out.splitlines()) != len(vmlist)` — `true`
when the loop exits. -/
def vmPollDone (vmlist : List String) (keyscan_out : String) : Bool :=
  (splitlines keyscan_out).length == vmlist.length

/-- One iteration of the keyscan loop body: bump `loopcount`, take the fresh
keyscan output, and when the counter reaches 40 reset it to 0 and
destroy-and-recreate exactly the guests whose names do not occur in the
keyscan output (`guest not in keyscan_out`).  Returns the new state and the
list of guests recreated in this iteration. -/
def vmPollStep (vmlist : List String) (keyscan : String)
    (st : VMPollState) : VMPollState × List String :=
  let lc := st.loopcount + 1
  if lc = 40 then
    (⟨0, keyscan⟩, vmlist.filter (fun g => !strContains keyscan g))
  else
    (⟨lc, keyscan⟩, [])

/-- Run the keyscan loop against a trace of keyscan outputs (one per
iteration), counting how many recreate cycles (counter hitting 40) fire.
The guard is checked before each iteration exactly as in the `while`. -/
def vmPollRun (vmlist : List String) (scans : List String)
    (st : VMPollState) : VMPollState × Nat :=
  match scans with
  | [] => (st, 0)
  | k :: rest =>
    if vmPollDone vmlist st.keyscan_out then (st, 0)
    else
      let cyc : Nat := if st.loopcount + 1 = 40 then 1 else 0
      let res := vmPollRun vmlist rest (vmPollStep vmlist k st).1
      (res.1, cyc + res.2)

/-- Teardown of `lock_machines` (internal.py:147-152): the machines on which
`lock.unlock_one` is called.  Every target is released (one call each, in
order) iff `ctx.config.get('unlock_on_failure', False)` or
`ctx.summary.get('success', False)` holds; otherwise none is. -/
def lockTeardownReleased (targets : List String) (unlock_on_failure : Bool)
    (s : RunSummary) : List String :=
  if unlock_on_failure || s.success then targets else []

/-! Section: archive (internal.py:289-333). -/

/-- Observable outcome of the `archive` scope around the wrapped stages. -/
structure ArchiveEffects where
  /-- The summary after the scope (the `except` branch may have flipped
  `success`). -/
  summary : RunSummary
  /-- Whether the remote archive tree was pulled to local storage. -/
  pulled : Bool
  /-- Whether the remote archive directory was removed (`rm -rf`). -/
  removedRemote : Bool
  /-- Whether the wrapped exception propagates out of the scope. -/
  reraised : Bool
deriving Repr, DecidableEq

/-- The `archive` scope: `raised` says whether the wrapped stages raised,
`archiveLocal` whether `ctx.archive is not None`, `archiveOnError` the
truthiness of `ctx.config.get('archive-on-error')`.  On a raise the except
branch sets `success = False` first and re-raises; the `finally` pulls the
remote tree unless archiving is off or `archive-on-error` holds with
`success` (as updated) still true, then removes the remote tree
unconditionally. -/
def archiveStage (raised : Bool) (archiveLocal : Bool)
    (archiveOnError : Bool) (s : RunSummary) : ArchiveEffects :=
  let s1 := if raised then archiveOnExcept s else s
  { summary := s1
    pulled := archiveLocal && !(archiveOnError && s1.success)
    removedRemote := true
    reraised := raised }

/-! Section: base (internal.py:24-56). -/

/-- Result of a remote command: success, or a command error. -/
inductive CmdResult where
  | ok
  | err (msg : String)
deriving Repr, DecidableEq

/-- Model of `rmdir -- dir` on a directory whose contents are `contents`: removes the
directory only when it is empty, otherwise fails with a command error and
deletes nothing.  Returns the result and whether the directory was removed. -/
def rmdirCmd (contents : List String) : CmdResult × Bool :=
  if contents.isEmpty then (.ok, true)
  else (.err "Directory not empty", false)

/-- The (fixed) argument vector of the `base` teardown command
(internal.py:46-55): a bare `rmdir`, not a recursive or forced removal. -/
def baseTeardownArgs (testdir : String) : List String :=
  ["rmdir", "--", testdir]

/-- Observable outcome of the `base` scope's teardown. -/
structure BaseTeardown where
  teardownRan : Bool
  dirRemoved : Bool
  result : CmdResult
  reraised : Bool
deriving Repr, DecidableEq

/-- The `base` scope: create the test directory, yield, and in a `finally`
(so on every exit path, `raised` or not) run `rmdir` on it;
`contentsAtTeardown` is what the directory holds at that moment. -/
def baseStage (raised : Bool) (contentsAtTeardown : List String) :
    BaseTeardown :=
  let r := rmdirCmd contentsAtTeardown
  { teardownRan := true
    dirRemoved := r.2
    result := r.1
    reraised := raised }

/-! Section: syslog (internal.py:422-559). -/

/-- Observable effects of the `syslog` scope. -/
structure SyslogEffects where
  /-- Whether the `mkdir .../syslog` fan-out ran. -/
  dirCreated : Bool
  /-- The rsyslog routing rule written to every host. -/
  ruleInstalled : Bool
  /-- Number of cluster-wide `service rsyslog restart` fan-outs. -/
  serviceRestarts : Nat
  /-- Number of hosts whose captured logs were scanned. -/
  scannedHosts : Nat
  /-- The `find ... -name *.log | xargs gzip` compression ran. -/
  compressed : Bool
  summary : RunSummary
  reraised : Bool
deriving Repr, DecidableEq

/-- The per-host scan loop of the syslog teardown folded over every host's
captured lines (internal.py:497-537). -/
def syslogScanAll (hosts : List (List String)) (s : RunSummary) : RunSummary :=
  hosts.foldl (fun acc lines => syslogCheckHost lines acc) s

/-- The whole `syslog` scope.  When `ctx.archive is None` the feature is
disabled: the body is a bare `yield; return`, so nothing is created, scanned
or mutated on any exit path and an exception from the wrapped run just
propagates.  Otherwise setup creates the directory, installs the rule and
restarts rsyslog; teardown (in a `finally`) removes the rule, restarts
rsyslog again, scans every host and always compresses. -/
def syslogStage (archiveIsNone : Bool) (raised : Bool)
    (hosts : List (List String)) (s : RunSummary) : SyslogEffects :=
  if archiveIsNone then
    { dirCreated := false
      ruleInstalled := false
      serviceRestarts := 0
      scannedHosts := 0
      compressed := false
      summary := s
      reraised := raised }
  else
    { dirCreated := true
      ruleInstalled := true
      serviceRestarts := 2
      scannedHosts := hosts.length
      compressed := true
      summary := syslogScanAll hosts s
      reraised := raised }

/-! Section: shared lemmas about the summary transforms. -/

/-- The per-host syslog check never turns `success` back to true. -/
theorem syslogCheckHost_success_mono (lines : List String) (s : RunSummary) :
    (syslogCheckHost lines s).success = true → s.success = true := by
  unfold syslogCheckHost
  cases h : scanPipeline lines <;> simp

/-- The syslog scan over all hosts never turns `success` back to true. -/
theorem syslogScanAll_success_mono (hosts : List (List String))
    (s : RunSummary) :
    (syslogScanAll hosts s).success = true → s.success = true := by
  induction hosts generalizing s with
  | nil => exact fun h => h
  | cons l rest ih =>
    intro h
    have h1 : (syslogScanAll rest (syslogCheckHost l s)).success = true := h
    exact syslogCheckHost_success_mono l s (ih (syslogCheckHost l s) h1)

/-- A `failure_reason` already present survives the coredump detector. -/
theorem coredumpCheckHost_reason_keep (stdout rem : String) (s : RunSummary)
    (r : String) (h : s.failure_reason = some r) :
    (coredumpCheckHost stdout rem s).failure_reason = some r := by
  unfold coredumpCheckHost
  split <;> simp [h]

/-- A `failure_reason` already present survives the per-host syslog check. -/
theorem syslogCheckHost_reason_keep (lines : List String) (s : RunSummary)
    (r : String) (h : s.failure_reason = some r) :
    (syslogCheckHost lines s).failure_reason = some r := by
  unfold syslogCheckHost
  cases hp : scanPipeline lines <;> simp [h]

/-- A `failure_reason` already present survives the whole syslog scan. -/
theorem syslogScanAll_reason_keep (hosts : List (List String))
    (s : RunSummary) (r : String) (h : s.failure_reason = some r) :
    (syslogScanAll hosts s).failure_reason = some r := by
  induction hosts generalizing s with
  | nil => exact h
  | cons l rest ih =>
    exact ih (syslogCheckHost l s) (syslogCheckHost_reason_keep l s r h)

/-- Closed form of the keyscan loop on the always-empty keyscan trace: with
one pending VM and every keyscan empty, after `m` further polls from stall
counter `j < 40` the counter is `(j + m) % 40` and `(j + m) / 40` recreate
cycles have fired. -/
theorem vmPollRun_replicate_empty (m : Nat) :
    ∀ j : Nat, j < 40 →
      vmPollRun ["vm1"] (List.replicate m "") ⟨j, ""⟩
        = (⟨(j + m) % 40, ""⟩, (j + m) / 40) := by
  induction m with
  | zero =>
    intro j hj
    simp [vmPollRun, Nat.mod_eq_of_lt hj, Nat.div_eq_of_lt hj]
  | succ m ih =>
    intro j hj
    rw [List.replicate_succ]
    have hdone : vmPollDone ["vm1"] "" = false := rfl
    simp only [vmPollRun, hdone, Bool.false_eq_true, if_false]
    by_cases hj40 : j + 1 = 40
    · have hstep : (vmPollStep ["vm1"] "" ⟨j, ""⟩).1 = ⟨0, ""⟩ := by
        simp [vmPollStep, hj40]
      rw [hstep, if_pos hj40, ih 0 (by omega)]
      have e1 : (0 + m) % 40 = (j + (m + 1)) % 40 := by omega
      have e2 : 1 + (0 + m) / 40 = (j + (m + 1)) / 40 := by omega
      rw [e1, e2]
    · have hstep : (vmPollStep ["vm1"] "" ⟨j, ""⟩).1 = ⟨j + 1, ""⟩ := by
        simp [vmPollStep, hj40]
      rw [hstep, if_neg hj40, ih (j + 1) (by omega)]
      have e1 : (j + 1 + m) % 40 = (j + (m + 1)) % 40 := by omega
      have e2 : 0 + (j + 1 + m) / 40 = (j + (m + 1)) / 40 := by omega
      rw [e1, e2]

/-! Section: the claims. -/

/-- C1: every write of `RunSummary.success` in the module — the archive
except-branch, the coredump detector and the syslog detector — writes
`false`; none of them can turn a false `success` back to true, so `success`
is monotone toward false for the remainder of the run. -/
theorem c1_success_monotone (s : RunSummary)
    (raised archiveLocal archiveOnError : Bool) (stdout rem : String)
    (lines : List String) (hosts : List (List String)) :
    (archiveOnExcept s).success = false
    ∧ ((archiveStage raised archiveLocal archiveOnError s).summary.success
          = true → s.success = true)
    ∧ ((coredumpCheckHost stdout rem s).success = true → s.success = true)
    ∧ ((syslogCheckHost lines s).success = true → s.success = true)
    ∧ ((syslogScanAll hosts s).success = true → s.success = true)
    ∧ (stdout ≠ "OK\n" → (coredumpCheckHost stdout rem s).success = false)
    ∧ (∀ line, scanPipeline lines = some line
          → (syslogCheckHost lines s).success = false) := by
  refine ⟨rfl, ?_, ?_, syslogCheckHost_success_mono lines s,
    syslogScanAll_success_mono hosts s, ?_, ?_⟩
  · cases raised <;> simp [archiveStage, archiveOnExcept]
  · unfold coredumpCheckHost
    split <;> simp
  · intro h
    unfold coredumpCheckHost
    rw [if_pos (by simpa using h)]
  · intro line h
    unfold syslogCheckHost
    rw [h]

/-- C1 witness: on concrete inputs the coredump and syslog detectors flag
`success = false`, and the archive except-branch writes `false`. -/
theorem c1_success_monotone_witness :
    (archiveOnExcept ⟨true, none⟩).success = false
    ∧ (coredumpCheckHost "" "host1" ⟨true, none⟩).success = false
    ∧ (syslogCheckHost ["a DEADLOCK was hit"] ⟨true, none⟩).success
        = false := by
  have h := c1_success_monotone ⟨true, none⟩ true true true "" "host1"
    ["a DEADLOCK was hit"] []
  exact ⟨h.1, h.2.2.2.2.2.1 (by decide),
    h.2.2.2.2.2.2 "a DEADLOCK was hit" (by decide)⟩

/-- C2: both detectors that record a failure cause (coredump, syslog) write
`failure_reason` only when absent: a reason already present survives each
detector and the whole per-host syslog scan unchanged. -/
theorem c2_reason_first_writer_wins (s : RunSummary) (r : String)
    (stdout rem : String) (lines : List String) (hosts : List (List String))
    (h : s.failure_reason = some r) :
    (coredumpCheckHost stdout rem s).failure_reason = some r
    ∧ (syslogCheckHost lines s).failure_reason = some r
    ∧ (syslogScanAll hosts s).failure_reason = some r :=
  ⟨coredumpCheckHost_reason_keep stdout rem s r h,
   syslogCheckHost_reason_keep lines s r h,
   syslogScanAll_reason_keep hosts s r h⟩

/-- C2 witness: an earlier reason survives a later coredump hit and a later
syslog hit. -/
theorem c2_reason_first_writer_wins_witness :
    (coredumpCheckHost "" "host1" ⟨false, some "earlier"⟩).failure_reason
        = some "earlier"
    ∧ (syslogCheckHost ["a DEADLOCK was hit"]
          ⟨false, some "earlier"⟩).failure_reason = some "earlier"
    ∧ (syslogScanAll [["kernel BUG at f"]]
          ⟨false, some "earlier"⟩).failure_reason = some "earlier" :=
  c2_reason_first_writer_wins ⟨false, some "earlier"⟩ "earlier" "" "host1"
    ["a DEADLOCK was hit"] [["kernel BUG at f"]] rfl

/-- C3: at `lock_machines` teardown every target machine is released (one
`unlock_one` call each, preserving multiplicity) iff `unlock_on_failure` is
configured or `success` is true; otherwise no machine is released. -/
theorem c3_release_policy (targets : List String) (unlock_on_failure : Bool)
    (s : RunSummary) :
    ((unlock_on_failure || s.success) = true →
        lockTeardownReleased targets unlock_on_failure s = targets
        ∧ ∀ m, (lockTeardownReleased targets unlock_on_failure s).count m
            = targets.count m)
    ∧ ((unlock_on_failure || s.success) = false →
        lockTeardownReleased targets unlock_on_failure s = []) := by
  constructor
  · intro h
    simp [lockTeardownReleased, h]
  · intro h
    simp [lockTeardownReleased, h]

/-- C3 witness: with `success = true` both targets are released; with
`success = false` and no unlock-on-failure nothing is. -/
theorem c3_release_policy_witness :
    lockTeardownReleased ["m1", "m2"] false ⟨true, none⟩ = ["m1", "m2"]
    ∧ lockTeardownReleased ["m1", "m2"] false ⟨false, none⟩ = [] := by
  have h1 := c3_release_policy ["m1", "m2"] false ⟨true, none⟩
  have h2 := c3_release_policy ["m1", "m2"] false ⟨false, none⟩
  exact ⟨(h1.1 (by decide)).1, h2.2 (by decide)⟩

/-- C4: once the listing succeeded and the up-count assertion passed, a
`scheduled*` owner facing fewer than 6 free machines never reaches the lease
call on that poll: blocking mode sleeps 10 seconds and retries, non-blocking
mode dies; an owner not starting with `scheduled` falls through to the lease
attempt regardless of the free count. -/
theorem c4_scheduled_floor (ms : List MachineRecord)
    (machine_types : List String) (how_many : Nat) (owner : String)
    (hup : how_many ≤ (ms.filter (is_up machine_types)).length) :
    (strStartsWith owner "scheduled" = true →
        (ms.filter (is_up_and_free machine_types)).length < 6 →
        pollPreLease (some ms) machine_types how_many owner true
            = .sleepRetry 10
        ∧ pollPreLease (some ms) machine_types how_many owner false
            = .fatal "not enough machines free")
    ∧ (strStartsWith owner "scheduled" = false →
        ∀ block, pollPreLease (some ms) machine_types how_many owner block
            = .lease) := by
  have hnot : ¬ (ms.filter (is_up machine_types)).length < how_many := by
    omega
  constructor
  · intro hsch hfree
    constructor <;> simp [pollPreLease, hnot, hsch, hfree]
  · intro hsch block
    simp [pollPreLease, hnot, hsch]

/-- C4 witness (scenario B): owner `scheduled-nightly`, 5 free machines of
the requested type — blocking mode sleeps 10s, non-blocking mode dies; owner
`alice` in the same pool proceeds to the lease. -/
theorem c4_scheduled_floor_witness :
    pollPreLease
        (some [⟨"m1", true, "mock", 0⟩, ⟨"m2", true, "mock", 0⟩,
               ⟨"m3", true, "mock", 0⟩, ⟨"m4", true, "mock", 0⟩,
               ⟨"m5", true, "mock", 0⟩])
        ["mock"] 3 "scheduled-nightly" true = .sleepRetry 10
    ∧ pollPreLease
        (some [⟨"m1", true, "mock", 0⟩, ⟨"m2", true, "mock", 0⟩,
               ⟨"m3", true, "mock", 0⟩, ⟨"m4", true, "mock", 0⟩,
               ⟨"m5", true, "mock", 0⟩])
        ["mock"] 3 "scheduled-nightly" false
        = .fatal "not enough machines free"
    ∧ pollPreLease
        (some [⟨"m1", true, "mock", 0⟩, ⟨"m2", true, "mock", 0⟩,
               ⟨"m3", true, "mock", 0⟩, ⟨"m4", true, "mock", 0⟩,
               ⟨"m5", true, "mock", 0⟩])
        ["mock"] 3 "alice" true = .lease := by
  have h1 := c4_scheduled_floor
    [⟨"m1", true, "mock", 0⟩, ⟨"m2", true, "mock", 0⟩,
     ⟨"m3", true, "mock", 0⟩, ⟨"m4", true, "mock", 0⟩,
     ⟨"m5", true, "mock", 0⟩] ["mock"] 3 "scheduled-nightly" (by decide)
  have h2 := c4_scheduled_floor
    [⟨"m1", true, "mock", 0⟩, ⟨"m2", true, "mock", 0⟩,
     ⟨"m3", true, "mock", 0⟩, ⟨"m4", true, "mock", 0⟩,
     ⟨"m5", true, "mock", 0⟩] ["mock"] 3 "alice" (by decide)
  exact ⟨(h1.1 (by decide) (by decide)).1, (h1.1 (by decide) (by decide)).2,
    h2.2 (by decide) true⟩

/-- C5: on the 40th consecutive failing poll the keyscan loop destroys and
recreates exactly the pending VMs whose names do not occur in the keyscan
output, leaves the others untouched, resets the stall counter to 0; on any
other poll it recreates nothing and bumps the counter; and there is no
overall cap — `k` cycles of 40 failing polls fire `k` recreate rounds for
every `k`. -/
theorem c5_vm_stall_recreate :
    (∀ (vmlist : List String) (keyscan : String) (st : VMPollState),
        st.loopcount = 39 →
        vmPollStep vmlist keyscan st
          = (⟨0, keyscan⟩, vmlist.filter (fun g => !strContains keyscan g)))
    ∧ (∀ (vmlist : List String) (keyscan : String) (st : VMPollState)
          (g : String), st.loopcount = 39 → g ∈ vmlist →
        (g ∈ (vmPollStep vmlist keyscan st).2
          ↔ strContains keyscan g = false))
    ∧ (∀ (vmlist : List String) (keyscan : String) (st : VMPollState),
        st.loopcount + 1 ≠ 40 →
        vmPollStep vmlist keyscan st = (⟨st.loopcount + 1, keyscan⟩, []))
    ∧ (∀ k : Nat,
        (vmPollRun ["vm1"] (List.replicate (40 * k) "") ⟨0, ""⟩).2 = k) := by
  refine ⟨?_, ?_, ?_, ?_⟩
  · intro vmlist keyscan st h
    simp [vmPollStep, h]
  · intro vmlist keyscan st g h hg
    simp [vmPollStep, h, hg]
  · intro vmlist keyscan st h
    simp [vmPollStep, h]
  · intro k
    rw [vmPollRun_replicate_empty (40 * k) 0 (by omega)]
    omega

/-- C5 witness: of two pending VMs with only `vm2` in the keyscan output, the
40th failing poll recreates exactly `vm1` and resets the counter; 80 failing
polls fire exactly 2 recreate rounds. -/
theorem c5_vm_stall_recreate_witness :
    vmPollStep ["vm1", "vm2"] "key for vm2\n" ⟨39, ""⟩
      = (⟨0, "key for vm2\n"⟩, ["vm1"])
    ∧ (vmPollRun ["vm1"] (List.replicate 80 "") ⟨0, ""⟩).2 = 2 := by
  have h := c5_vm_stall_recreate
  constructor
  · rw [h.1 ["vm1", "vm2"] "key for vm2\n" ⟨39, ""⟩ rfl]
    decide
  · have h2 := h.2.2.2 2
    norm_num at h2
    exact h2

/-- C6: the run targets are populated exactly when the lease granted the
requested count; a mismatching grant releases nothing and is fatal
non-blocking, a 10-second sleep and retry blocking. -/
theorem c6_no_underlease (newly_locked : List String) (how_many : Nat)
    (block : Bool) :
    ((leaseStep newly_locked how_many block).1
        = LeaseOutcome.success newly_locked
      ↔ newly_locked.length = how_many)
    ∧ (leaseStep newly_locked how_many block).2 = []
    ∧ (newly_locked.length ≠ how_many →
        (block = false → (leaseStep newly_locked how_many block).1 = .fatal)
        ∧ (block = true →
            (leaseStep newly_locked how_many block).1 = .sleepRetry 10))
    ∧ (∀ t, (leaseStep newly_locked how_many block).1
          = LeaseOutcome.success t
        → t = newly_locked ∧ newly_locked.length = how_many) := by
  by_cases h : newly_locked.length = how_many
  · simp [leaseStep, h]
  · cases block <;> simp [leaseStep, h]

/-- C6 witness: a grant of 2 of 3 requested machines populates nothing,
releases nothing and is fatal non-blocking / a 10s retry blocking; a full
grant of 3 populates exactly the granted set. -/
theorem c6_no_underlease_witness :
    leaseStep ["m1", "m2"] 3 false = (.fatal, [])
    ∧ leaseStep ["m1", "m2"] 3 true = (.sleepRetry 10, [])
    ∧ leaseStep ["m1", "m2", "m3"] 3 true
        = (.success ["m1", "m2", "m3"], []) := by
  have hf := c6_no_underlease ["m1", "m2"] 3 false
  have hb := c6_no_underlease ["m1", "m2"] 3 true
  have hs := c6_no_underlease ["m1", "m2", "m3"] 3 true
  refine ⟨?_, ?_, ?_⟩
  · have := (hf.2.2.1 (by decide)).1 rfl
    have h2 := hf.2.1
    exact Prod.ext this h2
  · have := (hb.2.2.1 (by decide)).2 rfl
    exact Prod.ext this hb.2.1
  · have := hs.1.mpr (by decide)
    exact Prod.ext this hs.2.1

/-- C7: if the wrapped stage raises, `archive` sets `success = false` before
its teardown and re-raises; the teardown pulls the remote tree iff local
archiving is on and not (archive-on-error with `success` still true) — in
particular a raised error always allows the pull — and removes the remote
tree unconditionally. -/
theorem c7_archive_scope (raised archiveLocal archiveOnError : Bool)
    (s : RunSummary) :
    (raised = true →
        (archiveStage raised archiveLocal archiveOnError s).summary.success
            = false
        ∧ (archiveStage raised archiveLocal archiveOnError s).reraised = true
        ∧ (archiveStage raised archiveLocal archiveOnError s).pulled
            = archiveLocal)
    ∧ (raised = false →
        (archiveStage raised archiveLocal archiveOnError s).summary = s)
    ∧ (archiveStage raised archiveLocal archiveOnError s).pulled
        = (archiveLocal && !(archiveOnError
            && (archiveStage raised archiveLocal archiveOnError
                  s).summary.success))
    ∧ (archiveStage raised archiveLocal archiveOnError s).removedRemote
        = true := by
  cases raised <;> simp [archiveStage, archiveOnExcept]

/-- C7 witness: a raised run with archive-on-error set still pulls (success
was flipped first), re-raises and removes the remote tree. -/
theorem c7_archive_scope_witness :
    (archiveStage true true true ⟨true, none⟩).summary.success = false
    ∧ (archiveStage true true true ⟨true, none⟩).reraised = true
    ∧ (archiveStage true true true ⟨true, none⟩).pulled = true
    ∧ (archiveStage true true true ⟨true, none⟩).removedRemote = true := by
  have h := c7_archive_scope true true true ⟨true, none⟩
  have h1 := h.1 rfl
  exact ⟨h1.1, h1.2.1, h1.2.2, h.2.2.2⟩

/-- C8: the base-stage teardown always runs (whatever the exit path), uses a
bare `rmdir` (no recursive or force flags), removes an empty directory, and
on a non-empty directory fails with a command error without deleting
anything. -/
theorem c8_workspace_rmdir (raised : Bool) (contents : List String)
    (testdir : String) :
    baseTeardownArgs testdir = ["rmdir", "--", testdir]
    ∧ (baseStage raised contents).teardownRan = true
    ∧ (baseStage raised contents).reraised = raised
    ∧ (contents = [] →
        (baseStage raised contents).dirRemoved = true
        ∧ (baseStage raised contents).result = .ok)
    ∧ (contents ≠ [] →
        (baseStage raised contents).dirRemoved = false
        ∧ (baseStage raised contents).result
            = .err "Directory not empty") := by
  refine ⟨rfl, rfl, rfl, ?_, ?_⟩
  · intro h
    simp [baseStage, rmdirCmd, h]
  · intro h
    simp [baseStage, rmdirCmd, List.isEmpty_eq_false_iff_exists_mem.mpr
      (List.exists_mem_of_ne_nil contents h)]

/-- C8 witness: a teardown that finds a leftover file errors out and deletes
nothing, even when the wrapped run raised; an empty directory is removed. -/
theorem c8_workspace_rmdir_witness :
    (baseStage true ["leftover"]).dirRemoved = false
    ∧ (baseStage true ["leftover"]).result = .err "Directory not empty"
    ∧ (baseStage false []).dirRemoved = true := by
  have h1 := c8_workspace_rmdir true ["leftover"] "/tmp/cephtest"
  have h2 := c8_workspace_rmdir false [] "/tmp/cephtest"
  exact ⟨(h1.2.2.2.2 (by decide)).1, (h1.2.2.2.2 (by decide)).2,
    (h2.2.2.2.1 rfl).1⟩

/-- C9: when the severity scan of a host's captured lines yields a first
matching line, the syslog teardown sets `success = false` and, only if no
reason is recorded yet, a reason quoting that line; when it yields nothing
the summary is untouched; the `.log` files are compressed in either case. -/
theorem c9_syslog_detector (lines : List String) (s : RunSummary)
    (line : String) (raised : Bool) (hosts : List (List String)) :
    (scanPipeline lines = some line →
        (syslogCheckHost lines s).success = false
        ∧ (s.failure_reason = none →
            (syslogCheckHost lines s).failure_reason
              = some (squote ++ (line ++ "\n") ++ squote ++ " in syslog"))
        ∧ (∀ r, s.failure_reason = some r →
            (syslogCheckHost lines s).failure_reason = some r))
    ∧ (scanPipeline lines = none → syslogCheckHost lines s = s)
    ∧ (syslogStage false raised hosts s).compressed = true := by
  refine ⟨?_, ?_, rfl⟩
  · intro h
    unfold syslogCheckHost
    rw [h]
    refine ⟨rfl, ?_, ?_⟩
    · intro hr
      simp [hr]
    · intro r hr
      simp [hr]
  · intro h
    unfold syslogCheckHost
    rw [h]

/-- C9 witness (scenario C): a line containing `DEADLOCK` that matches no
allow-listed pattern flips `success`, is quoted in the reason, and the
compression still runs. -/
theorem c9_syslog_detector_witness :
    (syslogCheckHost ["a DEADLOCK was hit"] ⟨true, none⟩).success = false
    ∧ (syslogCheckHost ["a DEADLOCK was hit"] ⟨true, none⟩).failure_reason
        = some (squote ++ ("a DEADLOCK was hit" ++ "\n") ++ squote
            ++ " in syslog")
    ∧ (syslogStage false true [["a DEADLOCK was hit"]]
        ⟨true, none⟩).compressed = true := by
  have h := c9_syslog_detector ["a DEADLOCK was hit"] ⟨true, none⟩
    "a DEADLOCK was hit" true [["a DEADLOCK was hit"]]
  have h1 := h.1 (by decide)
  exact ⟨h1.1, h1.2.1 rfl, h.2.2⟩

/-- C10: with no local archive configured the syslog stage is a complete
no-op on every exit path: no directory, no rule, no restarts, no scans, no
compression, the summary unchanged, and an exception from the wrapped run
just propagates. -/
theorem c10_syslog_noop_without_archive (raised : Bool)
    (hosts : List (List String)) (s : RunSummary) :
    syslogStage true raised hosts s
      = { dirCreated := false, ruleInstalled := false, serviceRestarts := 0,
          scannedHosts := 0, compressed := false, summary := s,
          reraised := raised } := rfl

end Internal
